import Mathlib

/-!
Shallow embedding of the MCP test servers
(`examples/test-servers/python-server.py` and
`examples/test-servers/websocket_mcp_server.py`).

JSON values are modelled by `JVal`; Python numbers by `PyNum`, where a
Python `float` is modelled as an exact rational (JSON floats are dyadic
rationals, so this is exact for the values that appear on the wire;
IEEE rounding of additions is abstracted as exact rational addition).
Python dictionary access (`d.get(k, default)`, `d[k]`) on arbitrary
values is modelled by `Except PyExn`-valued functions that raise the
same exception kinds CPython raises (AttributeError on `.get` of a
non-dict, KeyError on a missing subscript).  The wall clock
(`datetime.now()`) is passed in as an explicit string parameter.
-/

/-- A Python number: `int` or `float` (the float modelled as an exact rational). -/
inductive PyNum where
  | pint (n : Int)
  | pfloat (q : Rat)
deriving DecidableEq

/-- A JSON value as produced by `json.loads`. Objects are ordered key/value
lists (CPython dicts preserve insertion order; `json.loads` never produces
duplicate keys, the first-match lookup below agrees with dict lookup). -/
inductive JVal where
  | jnull
  | jbool (b : Bool)
  | jnum (n : PyNum)
  | jstr (s : String)
  | jarr (xs : List JVal)
  | jobj (fields : List (String × JVal))

/-- First-match association lookup, the model of Python dict lookup. -/
def jlookup : List (String × JVal) → String → Option JVal
  | [], _ => none
  | (k, v) :: fs, key => if k == key then some v else jlookup fs key

/-- Dict lookup with a default, the model of `d.get(k, default)` on a dict. -/
def jlookupD (fs : List (String × JVal)) (key : String) (d : JVal) : JVal :=
  (jlookup fs key).getD d

/-- The Python exceptions the two servers can raise during dispatch. -/
inductive PyExn where
  | keyError (key : String)
  | attributeError (msg : String)
  | typeError (msg : String)
deriving DecidableEq

/-- `type(v).__name__` for a JSON value held in CPython. -/
def pyTypeName : JVal → String
  | .jnull => "NoneType"
  | .jbool _ => "bool"
  | .jnum (.pint _) => "int"
  | .jnum (.pfloat _) => "float"
  | .jstr _ => "str"
  | .jarr _ => "list"
  | .jobj _ => "dict"

/-- `str(type(v))`, as interpolated by an f-string. -/
def pyTypeStr (v : JVal) : String :=
  "<class \x27" ++ pyTypeName v ++ "\x27>"

/-- `v.get(key, d)`: dict lookup with default, AttributeError on non-dicts. -/
def dictGet (v : JVal) (key : String) (d : JVal) : Except PyExn JVal :=
  match v with
  | .jobj fs => .ok (jlookupD fs key d)
  | _ => .error (.attributeError
      ("\x27" ++ pyTypeName v ++ "\x27 object has no attribute \x27get\x27"))

/-- `v[key]`: dict subscript, KeyError when the key is missing. -/
def dictIndex (v : JVal) (key : String) : Except PyExn JVal :=
  match v with
  | .jobj fs =>
    match jlookup fs key with
    | some x => .ok x
    | none => .error (.keyError key)
  | _ => .error (.typeError (pyTypeName v ++ " indices must be integers"))

/-- `str(e)` for the exceptions above (CPython renders `KeyError('id')` as `'id'`). -/
def pyExnStr : PyExn → String
  | .keyError k => "\x27" ++ k ++ "\x27"
  | .attributeError m => m
  | .typeError m => m

/-- Python truthiness of a JSON value (`if x:`). -/
def jTruthy : JVal → Bool
  | .jnull => false
  | .jbool b => b
  | .jnum (.pint n) => n != 0
  | .jnum (.pfloat q) => q != 0
  | .jstr s => !s.isEmpty
  | .jarr xs => !xs.isEmpty
  | .jobj fs => !fs.isEmpty

/-- `isinstance(v, dict)`. -/
def isDict : JVal → Bool
  | .jobj _ => true
  | _ => false

/-- Python `v == "s"` for a string literal `s` (False on any non-string value). -/
def isStr (v : JVal) (s : String) : Bool :=
  match v with
  | .jstr t => t == s
  | _ => false

/-- Smallest exponent `k` with `den ∣ 10 ^ k`, when one exists below the
search bound (it always does for denominators of values parsed from JSON,
which are dyadic). -/
def decExp (den : Nat) : Option Nat :=
  (List.range (den + 1)).find? (fun k => 10 ^ k % den == 0)

/-- Left-pad a digit string with zeros to width `k`. -/
def padZeros (s : String) (k : Nat) : String :=
  String.mk (List.replicate (k - s.length) '0') ++ s

/-- `str(q)` for a Python float of exact rational value `q`: sign, integer
part, decimal point, minimal fraction digits (CPython shortest-repr and
e-notation for extreme magnitudes are not modelled). -/
def floatRepr (q : Rat) : String :=
  let sign := if q < 0 then "-" else ""
  let n := q.num.natAbs
  let d := q.den
  match decExp d with
  | some k =>
    if k == 0 then sign ++ toString (n / d) ++ ".0"
    else
      let scaled := n * 10 ^ k / d
      sign ++ toString (scaled / 10 ^ k) ++ "." ++ padZeros (toString (scaled % 10 ^ k)) k
  | none => sign ++ toString n ++ "/" ++ toString d

/-- `str(n)` for a Python number. -/
def numRepr : PyNum → String
  | .pint n => toString n
  | .pfloat q => floatRepr q

mutual
/-- `repr(v)` for a JSON value held in CPython (string escapes inside
container renderings are not modelled; no claim inspects them). -/
def pyRepr : JVal → String
  | .jnull => "None"
  | .jbool true => "True"
  | .jbool false => "False"
  | .jnum n => numRepr n
  | .jstr s => "\x27" ++ s ++ "\x27"
  | .jarr xs => "[" ++ String.intercalate ", " (pyReprList xs) ++ "]"
  | .jobj fs => "\x7b" ++ String.intercalate ", " (pyReprFields fs) ++ "\x7d"

def pyReprList : List JVal → List String
  | [] => []
  | x :: xs => pyRepr x :: pyReprList xs

def pyReprFields : List (String × JVal) → List String
  | [] => []
  | (k, v) :: fs => ("\x27" ++ k ++ "\x27: " ++ pyRepr v) :: pyReprFields fs
end

/-- `str(v)`, as interpolated by an f-string. -/
def pyStr (v : JVal) : String :=
  match v with
  | .jstr s => s
  | _ => pyRepr v

/-- `int + float` promotion and exact addition on Python numbers. -/
def pyAddNum : PyNum → PyNum → PyNum
  | .pint a, .pint b => .pint (a + b)
  | .pint a, .pfloat b => .pfloat (a + b)
  | .pfloat a, .pint b => .pfloat (a + b)
  | .pfloat a, .pfloat b => .pfloat (a + b)

/-- Numeric view of a value under `+` (`bool` is an `int` subclass in Python). -/
def toNum : JVal → Option PyNum
  | .jnum n => some n
  | .jbool b => some (.pint (if b then 1 else 0))
  | _ => none

/-- Python `a + b` on JSON values: number addition, `str`/`list`
concatenation, TypeError otherwise. -/
def pyAddJ (a b : JVal) : Except PyExn JVal :=
  match toNum a, toNum b with
  | some x, some y => .ok (.jnum (pyAddNum x y))
  | _, _ =>
    match a, b with
    | .jstr s, .jstr t => .ok (.jstr (s ++ t))
    | .jarr xs, .jarr ys => .ok (.jarr (xs ++ ys))
    | .jstr _, _ => .error (.typeError
        ("can only concatenate str (not \"" ++ pyTypeName b ++ "\") to str"))
    | .jarr _, _ => .error (.typeError
        ("can only concatenate list (not \"" ++ pyTypeName b ++ "\") to list"))
    | _, _ => .error (.typeError
        ("unsupported operand type(s) for +: \x27" ++ pyTypeName a
          ++ "\x27 and \x27" ++ pyTypeName b ++ "\x27"))

/-- A JSON-RPC success envelope `{jsonrpc, id, result}`. -/
def resultResponse (rid : JVal) (result : JVal) : JVal :=
  .jobj [("jsonrpc", .jstr "2.0"), ("id", rid), ("result", result)]

/-- A JSON-RPC error envelope `{jsonrpc, id, error: {code, message}}`. -/
def errorResponse (rid : JVal) (code : Int) (msg : String) : JVal :=
  .jobj [("jsonrpc", .jstr "2.0"), ("id", rid),
    ("error", .jobj [("code", .jnum (.pint code)), ("message", .jstr msg)])]

/-- A single `{type: "text", text}` content block. -/
def textBlock (text : String) : JVal :=
  .jobj [("type", .jstr "text"), ("text", .jstr text)]

/-- Field lookup on a JSON value (`none` on non-objects). -/
def jget (v : JVal) (key : String) : Option JVal :=
  match v with
  | .jobj fs => jlookup fs key
  | _ => none

/-- The `error.code` of a response, as a Python int, when there is one. -/
def errCode (resp : JVal) : Option Int :=
  match jget resp "error" with
  | some e =>
    match jget e "code" with
    | some (.jnum (.pint n)) => some n
    | _ => none
  | none => none

/-- The `error.message` of a response, when there is one. -/
def errMsg (resp : JVal) : Option String :=
  match jget resp "error" with
  | some e =>
    match jget e "message" with
    | some (.jstr s) => some s
    | _ => none
  | none => none

namespace MCPTestServer

/-!
Embedding of `examples/test-servers/python-server.py` (`class MCPTestServer`).
All fields are assigned once in `__init__` and never mutated, so they are
plain constants here.
-/

/-- `self.server_info`. -/
def server_info : JVal :=
  .jobj [("name", .jstr "python-test-server"), ("version", .jstr "1.0.0")]

/-- `self.capabilities`. -/
def capabilities : JVal :=
  .jobj [("tools", .jobj [("listChanged", .jbool true)])]

/-- `self.tools`: the fixed three-tool catalog built in `__init__`. -/
def tools : JVal :=
  .jarr
    [ .jobj [("name", .jstr "echo"),
        ("description", .jstr "Echo back the input text"),
        ("inputSchema", .jobj [("type", .jstr "object"),
          ("properties", .jobj [("text", .jobj [("type", .jstr "string"),
            ("description", .jstr "Text to echo back")])]),
          ("required", .jarr [.jstr "text"])])],
      .jobj [("name", .jstr "add"),
        ("description", .jstr "Add two numbers together"),
        ("inputSchema", .jobj [("type", .jstr "object"),
          ("properties", .jobj
            [("a", .jobj [("type", .jstr "number"),
               ("description", .jstr "First number")]),
             ("b", .jobj [("type", .jstr "number"),
               ("description", .jstr "Second number")])]),
          ("required", .jarr [.jstr "a", .jstr "b"])])],
      .jobj [("name", .jstr "get_time"),
        ("description", .jstr "Get the current time"),
        ("inputSchema", .jobj [("type", .jstr "object"),
          ("properties", .jobj []),
          ("additionalProperties", .jbool false)])] ]

/-- `handle_initialize` (shortened name): builds the fixed result envelope;
`request["id"]` raises KeyError when the request has no `id` field. -/
def handle_init (request : JVal) : Except PyExn JVal := do
  let rid ← dictIndex request "id"
  pure (resultResponse rid (.jobj
    [("protocolVersion", .jstr "2025-03-26"),
     ("capabilities", capabilities),
     ("serverInfo", server_info)]))

/-- `handle_list_tools`: the fixed catalog; `request["id"]` as above. -/
def handle_list_tools (request : JVal) : Except PyExn JVal := do
  let rid ← dictIndex request "id"
  pure (resultResponse rid (.jobj [("tools", tools)]))

/-- The `try:` block of `handle_call_tool` (lines 99-136): tool dispatch by
name; each `return` evaluates `request["id"]` at that point, so a missing
`id` raises KeyError inside the `try`. -/
def call_tool_body (now : String) (request tool_name arguments : JVal) :
    Except PyExn JVal := do
  if isStr tool_name "echo" then
    let text ← dictGet arguments "text" (.jstr "")
    let rid ← dictIndex request "id"
    pure (resultResponse rid (.jobj
      [("content", .jarr [textBlock ("Echo: " ++ pyStr text)])]))
  else if isStr tool_name "add" then
    let a ← dictGet arguments "a" (.jnum (.pint 0))
    let b ← dictGet arguments "b" (.jnum (.pint 0))
    let result ← pyAddJ a b
    let rid ← dictIndex request "id"
    pure (resultResponse rid (.jobj
      [("content", .jarr [textBlock ("Result: " ++ pyStr result)])]))
  else if isStr tool_name "get_time" then
    let rid ← dictIndex request "id"
    pure (resultResponse rid (.jobj
      [("content", .jarr [textBlock ("Current time: " ++ now)])]))
  else
    let rid ← dictIndex request "id"
    pure (errorResponse rid (-32601) ("Unknown tool: " ++ pyStr tool_name))

/-- `handle_call_tool`: reads `params`, `name`, `arguments` (AttributeError
propagates if `params` is not a dict), then runs the `try:` body; any
exception from the body is converted to a `-32603` response by the
`except` handler, which itself evaluates `request["id"]` and so re-raises
KeyError when `id` is missing. -/
def handle_call_tool (now : String) (request : JVal) : Except PyExn JVal := do
  let params ← dictGet request "params" (.jobj [])
  let tool_name ← dictGet params "name" .jnull
  let arguments ← dictGet params "arguments" (.jobj [])
  match call_tool_body now request tool_name arguments with
  | .ok resp => pure resp
  | .error e => do
    let rid ← dictIndex request "id"
    pure (errorResponse rid (-32603) ("Tool execution error: " ++ pyExnStr e))

/-- `handle_request`: route by `method`; unrecognized methods answer with
`-32601` using `request.get("id")` (so `null` when `id` is absent). -/
def handle_request (now : String) (request : JVal) : Except PyExn JVal := do
  let method ← dictGet request "method" .jnull
  if isStr method "initialize" then handle_init request
  else if isStr method "tools/list" then handle_list_tools request
  else if isStr method "tools/call" then handle_call_tool now request
  else do
    let rid ← dictGet request "id" .jnull
    pure (errorResponse rid (-32601) ("Method not found: " ++ pyStr method))

/-- One message unit as seen by `run_stdio` after stripping: either a line
`json.loads` rejects (with `str(e)` as the detail) or a parsed value. -/
inductive Msg where
  | malformed (detail : String)
  | parsed (v : JVal)

/-- The `-32700` response printed on a JSONDecodeError. -/
def parse_error_response (detail : String) : JVal :=
  errorResponse .jnull (-32700) ("Parse error: " ++ detail)

/-- One iteration of the `run_stdio` loop on a non-blank line: the emitted
responses and whether the loop continues.  A malformed line prints the
parse-error response and continues; a parsed request is dispatched and its
response printed; an exception escaping `handle_request` hits the outer
`except Exception`, prints to stderr only, and breaks the loop. -/
def process_line (now : String) (m : Msg) : List JVal × Bool :=
  match m with
  | .malformed d => ([parse_error_response d], true)
  | .parsed request =>
    match handle_request now request with
    | .ok resp => ([resp], true)
    | .error _ => ([], false)

/-- `run_stdio` over a finite input: the sequence of responses printed to
stdout.  Each unit is paired with the clock reading at that iteration. -/
def run_stdio : List (String × Msg) → List JVal
  | [] => []
  | (now, m) :: rest =>
    let step := process_line now m
    step.1 ++ (if step.2 then run_stdio rest else [])

end MCPTestServer

namespace WebSocketMCPServer

/-!
Embedding of `examples/test-servers/websocket_mcp_server.py`
(`class WebSocketMCPServer`).
-/

/-- `self.capabilities`. -/
def capabilities : JVal := .jobj [("tools", .jobj [])]

/-- The fixed two-tool catalog inlined in the `tools/list` branch. -/
def tools : JVal :=
  .jarr
    [ .jobj [("name", .jstr "websocket_search"),
        ("description", .jstr "Search for information via WebSocket MCP server"),
        ("inputSchema", .jobj [("type", .jstr "object"),
          ("properties", .jobj [("query", .jobj [("type", .jstr "string"),
            ("description", .jstr "The search query")])]),
          ("required", .jarr [.jstr "query"]),
          ("additionalProperties", .jbool false)])],
      .jobj [("name", .jstr "websocket_time"),
        ("description", .jstr "Get current time from WebSocket server"),
        ("inputSchema", .jobj [("type", .jstr "object"),
          ("properties", .jobj []),
          ("additionalProperties", .jbool false)])] ]

/-- The `result_text` built for a `websocket_search` hit. -/
def search_text (query : JVal) : String :=
  "🔍 WEBSOCKET MCP SEARCH for \x27" ++ pyStr query
    ++ "\x27: Found comprehensive results via WebSocket connection. "
    ++ "Server located relevant information about " ++ pyStr query
    ++ " from distributed sources. [Response from WebSocket MCP Server]"

/-- The `result_text` built for `websocket_time` at clock reading `now`. -/
def time_text (now : String) : String :=
  "⏰ WEBSOCKET MCP TIME: " ++ now ++ " [Timestamp from WebSocket MCP Server]"

/-- `handle_request`: reads `method`, `params`, `id` up front (AttributeError
if the parsed value is not a dict), then routes.  Returns `none` for the
`notifications/initialized` branch (Python `return None`) and a success
envelope with an empty `result` object for unrecognized methods. -/
def handle_request (now : String) (request : JVal) :
    Except PyExn (Option JVal) := do
  let method ← dictGet request "method" .jnull
  let params ← dictGet request "params" (.jobj [])
  let req_id ← dictGet request "id" .jnull
  if isStr method "initialize" then
    pure (some (resultResponse req_id (.jobj
      [("protocolVersion", .jstr "2024-11-05"),
       ("capabilities", capabilities),
       ("serverInfo", .jobj [("name", .jstr "websocket-demo-mcp-server"),
         ("version", .jstr "1.0.0")])])))
  else if isStr method "tools/list" then
    pure (some (resultResponse req_id (.jobj [("tools", tools)])))
  else if isStr method "tools/call" then do
    let tool_name ← dictGet params "name" .jnull
    let arguments ← dictGet params "arguments" (.jobj [])
    if !(isDict arguments) then
      pure (some (errorResponse req_id (-32602)
        ("Invalid parameters: arguments must be a JSON object, got "
          ++ pyTypeStr arguments)))
    else if isStr tool_name "websocket_search" then do
      let query ← dictGet arguments "query" (.jstr "")
      if !(jTruthy query) then
        pure (some (errorResponse req_id (-32602)
          "Invalid parameters: \x27query\x27 is required for websocket_search"))
      else
        pure (some (resultResponse req_id (.jobj
          [("content", .jarr [textBlock (search_text query)])])))
    else if isStr tool_name "websocket_time" then
      pure (some (resultResponse req_id (.jobj
        [("content", .jarr [textBlock (time_text now)])])))
    else
      pure (some (errorResponse req_id (-32601)
        ("Method not found: Unknown tool \x27" ++ pyStr tool_name ++ "\x27")))
  else if isStr method "notifications/initialized" then
    pure none
  else
    pure (some (resultResponse req_id (.jobj [])))

/-- One frame as seen by `handle_client`: a binary frame (skipped), a text
frame `json.loads` rejects, or a parsed value. -/
inductive WsMsg where
  | binary
  | malformed
  | parsed (v : JVal)

/-- The `-32700` response sent on a JSONDecodeError. -/
def parse_error_response : JVal :=
  errorResponse .jnull (-32700) "Parse error"

/-- One iteration of the `async for` body in `handle_client`: the frames
sent back for one inbound frame.  A `None` (or otherwise falsy) dispatch
result is not sent (`if response:`); any exception other than a
JSONDecodeError is answered with `-32603` and `id = null`. -/
def process_message (now : String) (m : WsMsg) : List JVal :=
  match m with
  | .binary => []
  | .malformed => [parse_error_response]
  | .parsed request =>
    match handle_request now request with
    | .ok none => []
    | .ok (some resp) => if jTruthy resp then [resp] else []
    | .error e =>
      [errorResponse .jnull (-32603) ("Internal error: " ++ pyExnStr e)]

/-- `handle_client` over a finite inbound frame sequence: the outbound
frames, in order.  No per-message outcome breaks the loop. -/
def handle_client : List (String × WsMsg) → List JVal
  | [] => []
  | (now, m) :: rest => process_message now m ++ handle_client rest

end WebSocketMCPServer

/-- A well-formed call request envelope with the given id, method and params,
as `json.loads` would deliver it. -/
def mkRequest (rid : JVal) (method : String) (params : JVal) : JVal :=
  .jobj [("jsonrpc", .jstr "2.0"), ("id", rid),
    ("method", .jstr method), ("params", params)]

/-- C5: a message unit that is not valid JSON yields exactly one error
response with code `-32700` and `id = null` on each server, and the session
loop keeps processing the remaining units unchanged. -/
theorem C5_parse_error_recovery (nowp : String) (d : String)
    (rest : List (String × MCPTestServer.Msg))
    (noww : String) (restw : List (String × WebSocketMCPServer.WsMsg)) :
    MCPTestServer.run_stdio ((nowp, .malformed d) :: rest)
      = errorResponse .jnull (-32700) ("Parse error: " ++ d)
          :: MCPTestServer.run_stdio rest
    ∧ WebSocketMCPServer.handle_client ((noww, .malformed) :: restw)
      = errorResponse .jnull (-32700) "Parse error"
          :: WebSocketMCPServer.handle_client restw :=
  ⟨rfl, rfl⟩

/-- C6: `tools/call` of `add` with numeric arguments `a`, `b` succeeds with
the single text block `"Result: " ++ str(a + b)` (Python's default numeric
rendering, negatives and non-integers included); absent arguments default
to `0`, so an empty `arguments` object yields `"Result: 0"`. -/
theorem C6_add_result (now : String) (rid : JVal) (a b : PyNum) :
    MCPTestServer.handle_request now (mkRequest rid "tools/call"
        (.jobj [("name", .jstr "add"),
                ("arguments", .jobj [("a", .jnum a), ("b", .jnum b)])]))
      = .ok (resultResponse rid (.jobj
          [("content", .jarr [textBlock ("Result: " ++ numRepr (pyAddNum a b))])]))
    ∧ MCPTestServer.handle_request now (mkRequest rid "tools/call"
        (.jobj [("name", .jstr "add"),
                ("arguments", .jobj [("a", .jnum a)])]))
      = .ok (resultResponse rid (.jobj
          [("content", .jarr
              [textBlock ("Result: " ++ numRepr (pyAddNum a (.pint 0)))])]))
    ∧ MCPTestServer.handle_request now (mkRequest rid "tools/call"
        (.jobj [("name", .jstr "add"), ("arguments", .jobj [])]))
      = .ok (resultResponse rid (.jobj
          [("content", .jarr [textBlock "Result: 0"])])) :=
  ⟨rfl, rfl, rfl⟩

/-- C10: in the websocket server, any exception escaping `handle_request`
(anything other than a JSON parse failure) is answered with a `-32603`
response whose `id` is `null` — the request's own id is not echoed — and
the loop continues with the remaining frames. -/
theorem C10_ws_internal_error (now : String) (request : JVal) (e : PyExn)
    (rest : List (String × WebSocketMCPServer.WsMsg))
    (h : WebSocketMCPServer.handle_request now request = .error e) :
    WebSocketMCPServer.handle_client ((now, .parsed request) :: rest)
      = errorResponse .jnull (-32603) ("Internal error: " ++ pyExnStr e)
          :: WebSocketMCPServer.handle_client rest := by
  simp [WebSocketMCPServer.handle_client, WebSocketMCPServer.process_message, h]

/-- Witness for C10: a `tools/call` whose `params` is a list makes
`params.get` raise AttributeError; the reply carries `id = null`
although the request had id `7`, and the session continues. -/
theorem C10_ws_internal_error_witness :
    WebSocketMCPServer.handle_request "T"
        (.jobj [("id", .jnum (.pint 7)), ("method", .jstr "tools/call"),
                ("params", .jarr [])])
      = .error (.attributeError
          "\x27list\x27 object has no attribute \x27get\x27")
    ∧ WebSocketMCPServer.handle_client
        [("T", .parsed (.jobj [("id", .jnum (.pint 7)),
            ("method", .jstr "tools/call"), ("params", .jarr [])]))]
      = [errorResponse .jnull (-32603)
          "Internal error: \x27list\x27 object has no attribute \x27get\x27"] :=
  ⟨rfl, C10_ws_internal_error "T"
    (.jobj [("id", .jnum (.pint 7)), ("method", .jstr "tools/call"),
            ("params", .jarr [])])
    (.attributeError "\x27list\x27 object has no attribute \x27get\x27")
    [] rfl⟩

/-- C8: `websocket_search` with a missing or empty `query` answers with
`-32602` and a message naming the missing parameter; with a non-empty
string query it succeeds, the single text block being the search format
string with the query embedded. -/
theorem C8_websocket_search (now : String) (rid : JVal) (q : String)
    (h : q ≠ "") :
    WebSocketMCPServer.handle_request now (mkRequest rid "tools/call"
        (.jobj [("name", .jstr "websocket_search"), ("arguments", .jobj [])]))
      = .ok (some (errorResponse rid (-32602)
          "Invalid parameters: \x27query\x27 is required for websocket_search"))
    ∧ WebSocketMCPServer.handle_request now (mkRequest rid "tools/call"
        (.jobj [("name", .jstr "websocket_search"),
                ("arguments", .jobj [("query", .jstr "")])]))
      = .ok (some (errorResponse rid (-32602)
          "Invalid parameters: \x27query\x27 is required for websocket_search"))
    ∧ WebSocketMCPServer.handle_request now (mkRequest rid "tools/call"
        (.jobj [("name", .jstr "websocket_search"),
                ("arguments", .jobj [("query", .jstr q)])]))
      = .ok (some (resultResponse rid (.jobj [("content",
          .jarr [textBlock (WebSocketMCPServer.search_text (.jstr q))])]))) := by
  refine ⟨rfl, rfl, ?_⟩
  have hq : q.isEmpty = false := by
    cases hh : q.isEmpty
    · rfl
    · exact absurd ((String.isEmpty_iff q).mp hh) h
  simp [WebSocketMCPServer.handle_request, mkRequest, dictGet, jlookupD,
    jlookup, isStr, isDict, jTruthy, hq, resultResponse, textBlock,
    bind, Except.bind, pure, Except.pure]

/-- Witness for C8 at the query `"cats"`. -/
theorem C8_websocket_search_witness :
    ("cats" : String) ≠ ""
    ∧ WebSocketMCPServer.handle_request "T" (mkRequest (.jnum (.pint 4))
        "tools/call" (.jobj [("name", .jstr "websocket_search"),
          ("arguments", .jobj [("query", .jstr "cats")])]))
      = .ok (some (resultResponse (.jnum (.pint 4)) (.jobj [("content",
          .jarr [textBlock (WebSocketMCPServer.search_text (.jstr "cats"))])]))) :=
  ⟨by decide, (C8_websocket_search "T" (.jnum (.pint 4)) "cats" (by decide)).2.2⟩

/-- Counterexample for C2: the websocket server answers the unrecognized
method `"bogus"` with a success envelope carrying an empty `result` object
— there is no error member at all, so the response is not a `-32601`
error as the claim requires of both servers. -/
theorem C2_counterexample :
    WebSocketMCPServer.handle_request "T"
        (.jobj [("jsonrpc", .jstr "2.0"), ("id", .jnum (.pint 1)),
                ("method", .jstr "bogus")])
      = .ok (some (resultResponse (.jnum (.pint 1)) (.jobj [])))
    ∧ errCode (resultResponse (.jnum (.pint 1)) (.jobj [])) = none :=
  ⟨rfl, rfl⟩

/-- C2 amended: for a parsed request whose method is an unrecognized string,
the python server answers with code `-32601` and message
`"Method not found: {method}"` (id echoed via `.get`, so `null` when
absent), while the websocket server answers with a success envelope whose
`result` is the empty object (except when the method is its notification
literal, which it suppresses). -/
theorem C2_method_not_found (now : String) (fields : List (String × JVal))
    (m : String)
    (h1 : jlookupD fields "method" .jnull = .jstr m)
    (h2 : m ≠ "initialize") (h3 : m ≠ "tools/list") (h4 : m ≠ "tools/call") :
    MCPTestServer.handle_request now (.jobj fields)
      = .ok (errorResponse (jlookupD fields "id" .jnull) (-32601)
          ("Method not found: " ++ m))
    ∧ (m ≠ "notifications/initialized" →
       WebSocketMCPServer.handle_request now (.jobj fields)
         = .ok (some (resultResponse (jlookupD fields "id" .jnull)
             (.jobj [])))) := by
  constructor
  · simp [MCPTestServer.handle_request, dictGet, h1, isStr, h2, h3, h4,
      bind, Except.bind, pure, Except.pure, pyStr, pyRepr]
  · intro h5
    simp [WebSocketMCPServer.handle_request, dictGet, h1, isStr, h2, h3, h4,
      h5, bind, Except.bind, pure, Except.pure]

/-- Witness for C2 amended at method `"bogus"` with id `5`. -/
theorem C2_method_not_found_witness :
    MCPTestServer.handle_request "T"
        (.jobj [("id", .jnum (.pint 5)), ("method", .jstr "bogus")])
      = .ok (errorResponse (.jnum (.pint 5)) (-32601) "Method not found: bogus")
    ∧ WebSocketMCPServer.handle_request "T"
        (.jobj [("id", .jnum (.pint 5)), ("method", .jstr "bogus")])
      = .ok (some (resultResponse (.jnum (.pint 5)) (.jobj []))) := by
  have h := C2_method_not_found "T"
    [("id", .jnum (.pint 5)), ("method", .jstr "bogus")] "bogus"
    rfl (by decide) (by decide) (by decide)
  exact ⟨h.1, h.2 (by decide)⟩

/-- Counterexample for C3: calling the unregistered tool `missing_tool` on
the websocket server yields code `-32601` but the message
`"Method not found: Unknown tool 'missing_tool'"`, not the exact
`"Unknown tool: missing_tool"` the claim requires of both servers. -/
theorem C3_counterexample :
    WebSocketMCPServer.handle_request "T" (mkRequest (.jnum (.pint 3))
        "tools/call" (.jobj [("name", .jstr "missing_tool"),
                             ("arguments", .jobj [])]))
      = .ok (some (errorResponse (.jnum (.pint 3)) (-32601)
          "Method not found: Unknown tool \x27missing_tool\x27"))
    ∧ errMsg (errorResponse (.jnum (.pint 3)) (-32601)
          "Method not found: Unknown tool \x27missing_tool\x27")
        ≠ some "Unknown tool: missing_tool" :=
  ⟨rfl, by decide⟩

/-- C3 amended: a `tools/call` naming a tool outside the respective
registry answers with code `-32601` on both servers, but the message
formats differ: the python server says `"Unknown tool: {name}"`, the
websocket server `"Method not found: Unknown tool '{name}'"`. -/
theorem C3_unknown_tool (now : String) (rid : JVal) (name : String)
    (args : JVal)
    (hp1 : name ≠ "echo") (hp2 : name ≠ "add") (hp3 : name ≠ "get_time")
    (hw1 : name ≠ "websocket_search") (hw2 : name ≠ "websocket_time")
    (hargs : isDict args = true) :
    MCPTestServer.handle_request now (mkRequest rid "tools/call"
        (.jobj [("name", .jstr name), ("arguments", args)]))
      = .ok (errorResponse rid (-32601) ("Unknown tool: " ++ name))
    ∧ WebSocketMCPServer.handle_request now (mkRequest rid "tools/call"
        (.jobj [("name", .jstr name), ("arguments", args)]))
      = .ok (some (errorResponse rid (-32601)
          ("Method not found: Unknown tool \x27" ++ name ++ "\x27"))) := by
  constructor
  · simp [MCPTestServer.handle_request, MCPTestServer.handle_call_tool,
      MCPTestServer.call_tool_body, mkRequest, dictGet, dictIndex,
      jlookupD, jlookup, isStr, hp1, hp2, hp3, pyStr, pyRepr,
      bind, Except.bind, pure, Except.pure]
  · simp [WebSocketMCPServer.handle_request, mkRequest, dictGet,
      jlookupD, jlookup, isStr, hw1, hw2, hargs, pyStr, pyRepr,
      bind, Except.bind, pure, Except.pure]

/-- Witness for C3 amended at the tool name `missing_tool`. -/
theorem C3_unknown_tool_witness :
    MCPTestServer.handle_request "T" (mkRequest (.jnum (.pint 3))
        "tools/call" (.jobj [("name", .jstr "missing_tool"),
                             ("arguments", .jobj [])]))
      = .ok (errorResponse (.jnum (.pint 3)) (-32601)
          "Unknown tool: missing_tool")
    ∧ WebSocketMCPServer.handle_request "T" (mkRequest (.jnum (.pint 3))
        "tools/call" (.jobj [("name", .jstr "missing_tool"),
                             ("arguments", .jobj [])]))
      = .ok (some (errorResponse (.jnum (.pint 3)) (-32601)
          "Method not found: Unknown tool \x27missing_tool\x27")) := by
  have h := C3_unknown_tool "T" (.jnum (.pint 3)) "missing_tool" (.jobj [])
    (by decide) (by decide) (by decide) (by decide) (by decide) rfl
  exact ⟨h.1, h.2⟩

/-- Counterexample for C4: on the python server a `tools/call` of `echo`
whose `arguments` is a list is answered with code `-32603` (the
AttributeError from `arguments.get` caught by the generic handler), not
the `-32602` InvalidParams error the claim requires of both servers. -/
theorem C4_counterexample :
    MCPTestServer.handle_request "T" (mkRequest (.jnum (.pint 1))
        "tools/call" (.jobj [("name", .jstr "echo"),
                             ("arguments", .jarr [.jnum (.pint 1)])]))
      = .ok (errorResponse (.jnum (.pint 1)) (-32603)
          "Tool execution error: \x27list\x27 object has no attribute \x27get\x27")
    ∧ errCode (errorResponse (.jnum (.pint 1)) (-32603)
          "Tool execution error: \x27list\x27 object has no attribute \x27get\x27")
        ≠ some (-32602) :=
  ⟨rfl, by decide⟩

/-- C4 amended: only the websocket server validates the shape of
`arguments`: a non-object `arguments` is rejected there with `-32602`
before any tool dispatch.  The python server has no such check — for a
known tool (`echo` here) a non-object `arguments` surfaces as the
AttributeError of `arguments.get`, converted to a `-32603` tool-execution
error. -/
theorem C4_invalid_arguments (now : String) (rid tool args : JVal)
    (h : isDict args = false) :
    WebSocketMCPServer.handle_request now (mkRequest rid "tools/call"
        (.jobj [("name", tool), ("arguments", args)]))
      = .ok (some (errorResponse rid (-32602)
          ("Invalid parameters: arguments must be a JSON object, got "
            ++ pyTypeStr args)))
    ∧ MCPTestServer.handle_request now (mkRequest rid "tools/call"
        (.jobj [("name", .jstr "echo"), ("arguments", args)]))
      = .ok (errorResponse rid (-32603)
          ("Tool execution error: \x27" ++ pyTypeName args
            ++ "\x27 object has no attribute \x27get\x27")) := by
  cases args
  case jobj fs => exact absurd h (by simp [isDict])
  all_goals exact ⟨rfl, rfl⟩

/-- Witness for C4 amended with `arguments = []` (a JSON list). -/
theorem C4_invalid_arguments_witness :
    WebSocketMCPServer.handle_request "T" (mkRequest (.jnum (.pint 9))
        "tools/call" (.jobj [("name", .jstr "echo"),
                             ("arguments", .jarr [])]))
      = .ok (some (errorResponse (.jnum (.pint 9)) (-32602)
          "Invalid parameters: arguments must be a JSON object, got <class \x27list\x27>"))
    ∧ MCPTestServer.handle_request "T" (mkRequest (.jnum (.pint 9))
        "tools/call" (.jobj [("name", .jstr "echo"),
                             ("arguments", .jarr [])]))
      = .ok (errorResponse (.jnum (.pint 9)) (-32603)
          "Tool execution error: \x27list\x27 object has no attribute \x27get\x27") := by
  have h := C4_invalid_arguments "T" (.jnum (.pint 9)) (.jstr "echo")
    (.jarr []) rfl
  exact ⟨h.1, h.2⟩

/-- Counterexample for C9: an `initialize` request without an `id` makes
the python server's `handle_initialize` raise `KeyError('id')` instead of
returning a result; the stdio loop's outer handler then terminates the
session with no output at all. -/
theorem C9_counterexample :
    MCPTestServer.handle_request "T"
        (.jobj [("jsonrpc", .jstr "2.0"), ("method", .jstr "initialize")])
      = .error (.keyError "id")
    ∧ MCPTestServer.process_line "T" (.parsed
        (.jobj [("jsonrpc", .jstr "2.0"), ("method", .jstr "initialize")]))
      = ([], false) :=
  ⟨rfl, rfl⟩

/-- C9 amended: `initialize` always succeeds with the fixed constants on
the websocket server, for any id (present or absent) and any params; on
the python server it succeeds exactly when the `id` field is present —
a missing `id` raises KeyError, which terminates the stdio session
without emitting a response. -/
theorem C9_init_succeeds (now : String) (fields : List (String × JVal))
    (h : jlookupD fields "method" .jnull = .jstr "initialize") :
    WebSocketMCPServer.handle_request now (.jobj fields)
      = .ok (some (resultResponse (jlookupD fields "id" .jnull) (.jobj
          [("protocolVersion", .jstr "2024-11-05"),
           ("capabilities", WebSocketMCPServer.capabilities),
           ("serverInfo", .jobj [("name", .jstr "websocket-demo-mcp-server"),
             ("version", .jstr "1.0.0")])])))
    ∧ (∀ rid, jlookup fields "id" = some rid →
        MCPTestServer.handle_request now (.jobj fields)
          = .ok (resultResponse rid (.jobj
              [("protocolVersion", .jstr "2025-03-26"),
               ("capabilities", MCPTestServer.capabilities),
               ("serverInfo", MCPTestServer.server_info)])))
    ∧ (jlookup fields "id" = none →
        MCPTestServer.process_line now (.parsed (.jobj fields))
          = ([], false)) := by
  refine ⟨?_, ?_, ?_⟩
  · simp [WebSocketMCPServer.handle_request, dictGet, h, isStr,
      bind, Except.bind, pure, Except.pure, resultResponse]
  · intro rid hrid
    simp [MCPTestServer.handle_request, MCPTestServer.handle_init,
      dictGet, dictIndex, h, hrid, isStr,
      bind, Except.bind, pure, Except.pure, resultResponse]
  · intro hrid
    simp [MCPTestServer.process_line, MCPTestServer.handle_request,
      MCPTestServer.handle_init, dictGet, dictIndex, h, hrid, isStr,
      bind, Except.bind, pure, Except.pure]

/-- Witness for C9 amended: with `id = 1` present both dispatchers
succeed; with `id` absent the python server's step emits nothing and
stops the loop. -/
theorem C9_init_succeeds_witness :
    WebSocketMCPServer.handle_request "T"
        (.jobj [("id", .jnum (.pint 1)), ("method", .jstr "initialize")])
      = .ok (some (resultResponse (.jnum (.pint 1)) (.jobj
          [("protocolVersion", .jstr "2024-11-05"),
           ("capabilities", WebSocketMCPServer.capabilities),
           ("serverInfo", .jobj [("name", .jstr "websocket-demo-mcp-server"),
             ("version", .jstr "1.0.0")])])))
    ∧ MCPTestServer.handle_request "T"
        (.jobj [("id", .jnum (.pint 1)), ("method", .jstr "initialize")])
      = .ok (resultResponse (.jnum (.pint 1)) (.jobj
          [("protocolVersion", .jstr "2025-03-26"),
           ("capabilities", MCPTestServer.capabilities),
           ("serverInfo", MCPTestServer.server_info)]))
    ∧ MCPTestServer.process_line "T" (.parsed
        (.jobj [("method", .jstr "initialize")]))
      = ([], false) := by
  have h1 := C9_init_succeeds "T"
    [("id", .jnum (.pint 1)), ("method", .jstr "initialize")] rfl
  have h2 := C9_init_succeeds "T" [("method", .jstr "initialize")] rfl
  exact ⟨h1.1, h1.2.1 (.jnum (.pint 1)) rfl, h2.2.2 rfl⟩

/-- C7: the `tools/list` response on each server is the fixed catalog
constant wrapped around the request id — it depends on nothing but the
id, in particular not on the clock or on any earlier traffic (the
dispatchers are pure functions and the catalogs are process-lifetime
constants, assigned once and never mutated), so repeated `tools/list`
calls in a session return identical descriptor sequences in the same
order.  The final conjunct makes the statelessness of the websocket
session loop explicit: processing a concatenation of message sequences
is the concatenation of processing them separately. -/
theorem C7_tools_list_constant (now : String)
    (fields : List (String × JVal))
    (h : jlookupD fields "method" .jnull = .jstr "tools/list") :
    (∀ rid, jlookup fields "id" = some rid →
      MCPTestServer.handle_request now (.jobj fields)
        = .ok (resultResponse rid (.jobj [("tools", MCPTestServer.tools)])))
    ∧ WebSocketMCPServer.handle_request now (.jobj fields)
        = .ok (some (resultResponse (jlookupD fields "id" .jnull)
            (.jobj [("tools", WebSocketMCPServer.tools)])))
    ∧ (∀ xs ys : List (String × WebSocketMCPServer.WsMsg),
        WebSocketMCPServer.handle_client (xs ++ ys)
          = WebSocketMCPServer.handle_client xs
              ++ WebSocketMCPServer.handle_client ys) := by
  refine ⟨?_, ?_, ?_⟩
  · intro rid hrid
    simp [MCPTestServer.handle_request, MCPTestServer.handle_list_tools,
      dictGet, dictIndex, h, hrid, isStr,
      bind, Except.bind, pure, Except.pure, resultResponse]
  · simp [WebSocketMCPServer.handle_request, dictGet, h, isStr,
      bind, Except.bind, pure, Except.pure, resultResponse]
  · intro xs ys
    induction xs with
    | nil => simp [WebSocketMCPServer.handle_client]
    | cons x rest ih =>
      cases x with
      | mk n m =>
        simp [WebSocketMCPServer.handle_client, ih]

/-- Witness for C7 with id `2`: both responses carry the respective
constant catalog. -/
theorem C7_tools_list_constant_witness :
    MCPTestServer.handle_request "T"
        (.jobj [("id", .jnum (.pint 2)), ("method", .jstr "tools/list")])
      = .ok (resultResponse (.jnum (.pint 2))
          (.jobj [("tools", MCPTestServer.tools)]))
    ∧ WebSocketMCPServer.handle_request "T"
        (.jobj [("id", .jnum (.pint 2)), ("method", .jstr "tools/list")])
      = .ok (some (resultResponse (.jnum (.pint 2))
          (.jobj [("tools", WebSocketMCPServer.tools)]))) := by
  have h := C7_tools_list_constant "T"
    [("id", .jnum (.pint 2)), ("method", .jstr "tools/list")] rfl
  exact ⟨h.1 (.jnum (.pint 2)) rfl, h.2.1⟩
theorem ws_process_message_empty_iff (now : String)
    (fields : List (String × JVal)) :
    WebSocketMCPServer.process_message now (.parsed (.jobj fields)) = []
      ↔ jlookupD fields "method" .jnull = .jstr "notifications/initialized" := by
  unfold WebSocketMCPServer.process_message WebSocketMCPServer.handle_request
  simp only [dictGet, bind, Except.bind]
  cases hM : jlookupD fields "method" .jnull with
  | jstr s =>
    by_cases h1 : s = "initialize"
    · subst h1; simp [isStr, jTruthy, pure, Except.pure, resultResponse]
    by_cases h2 : s = "tools/list"
    · subst h2; simp [isStr, jTruthy, pure, Except.pure, resultResponse]
    by_cases h3 : s = "tools/call"
    · subst h3
      simp only [isStr, String.reduceBEq, Bool.false_eq_true, if_false,
        beq_self_eq_true, if_true]
      refine iff_of_false ?_ (by simp)
      cases hP : jlookupD fields "params" (.jobj []) with
      | jobj fsp =>
        simp only [dictGet, Except.bind]
        cases hA : jlookupD fsp "arguments" (.jobj []) with
        | jobj fsa =>
          simp only [dictGet, Except.bind, isDict, Bool.not_true,
            Bool.false_eq_true, if_false]
          intro hemp
          split at hemp
          · rename_i heq
            repeat' split at heq
            all_goals simp [pure, Except.pure] at heq
          · rename_i resp heq
            repeat' split at heq
            all_goals simp [pure, Except.pure] at heq
            all_goals subst heq
            all_goals simp [jTruthy, errorResponse, resultResponse,
              textBlock] at hemp
          · simp at hemp
        | _ => simp [isDict, jTruthy, errorResponse, pure, Except.pure]
      | _ => simp [dictGet, Except.bind, jTruthy, errorResponse]
    by_cases h4 : s = "notifications/initialized"
    · subst h4; simp [isStr, pure, Except.pure]
    · simp [isStr, h1, h2, h3, h4, jTruthy, errorResponse, pure, Except.pure,
        resultResponse]
  | _ => simp [isStr, jTruthy, pure, Except.pure, resultResponse]

/-- Counterexample for C1: two parsed requests without an `id` field that
do produce output.  The python server answers the notification
`notifications/initialized` with a Method-not-found error (its stdio loop
prints every `handle_request` result); the websocket server answers an
id-less `initialize` with a result envelope carrying `id = null`. -/
theorem C1_counterexample :
    MCPTestServer.process_line "T" (.parsed (.jobj
        [("jsonrpc", .jstr "2.0"),
         ("method", .jstr "notifications/initialized")]))
      = ([errorResponse .jnull (-32601)
            "Method not found: notifications/initialized"], true)
    ∧ WebSocketMCPServer.process_message "T" (.parsed (.jobj
        [("jsonrpc", .jstr "2.0"), ("method", .jstr "initialize")]))
      = [resultResponse .jnull (.jobj
          [("protocolVersion", .jstr "2024-11-05"),
           ("capabilities", WebSocketMCPServer.capabilities),
           ("serverInfo", .jobj [("name", .jstr "websocket-demo-mcp-server"),
             ("version", .jstr "1.0.0")])])] :=
  ⟨rfl, rfl⟩

/-- C1 amended: notification suppression is not general.  The websocket
server produces no output exactly when the parsed object's method is the
literal `notifications/initialized` (whether or not an `id` is present);
the python server suppresses nothing — a request with no `id` and an
unrecognized method is answered with a `-32601` error carrying
`id = null` (and its recognized methods raise KeyError instead, see C9). -/
theorem C1_no_output_only_for_ws_notification (now : String)
    (fields : List (String × JVal)) :
    (WebSocketMCPServer.process_message now (.parsed (.jobj fields)) = []
      ↔ jlookupD fields "method" .jnull = .jstr "notifications/initialized")
    ∧ (jlookup fields "id" = none →
       ∀ m, jlookupD fields "method" .jnull = .jstr m →
         m ≠ "initialize" → m ≠ "tools/list" → m ≠ "tools/call" →
         MCPTestServer.process_line now (.parsed (.jobj fields))
           = ([errorResponse .jnull (-32601) ("Method not found: " ++ m)],
              true)) := by
  constructor
  · exact ws_process_message_empty_iff now fields
  · intro hid m hm hm1 hm2 hm3
    have hIdD : jlookupD fields "id" .jnull = .jnull := by
      simp [jlookupD, hid]
    simp [MCPTestServer.process_line, MCPTestServer.handle_request, dictGet,
      hm, hIdD, isStr, hm1, hm2, hm3, pyStr, pyRepr,
      bind, Except.bind, pure, Except.pure]

/-- Witness for C1 amended: the websocket server emits nothing for the
id-less `notifications/initialized`, and the python server emits exactly
one `-32601` response with `id = null` for an id-less unknown method. -/
theorem C1_no_output_only_for_ws_notification_witness :
    WebSocketMCPServer.process_message "T" (.parsed (.jobj
        [("method", .jstr "notifications/initialized")])) = []
    ∧ MCPTestServer.process_line "T" (.parsed (.jobj
        [("method", .jstr "nope")]))
      = ([errorResponse .jnull (-32601) "Method not found: nope"], true) :=
  ⟨(C1_no_output_only_for_ws_notification "T"
      [("method", .jstr "notifications/initialized")]).1.mpr rfl,
   (C1_no_output_only_for_ws_notification "T"
      [("method", .jstr "nope")]).2 rfl "nope" rfl
      (by decide) (by decide) (by decide)⟩
